import Mathlib

/-!
Shallow embedding of the Issue Query & Cycle Analytics Engine of this
repository (module `linear_tools.py`, class `LinearTools`), together with
theorems settling the specification claims about it.

Modelling conventions:
* Python dict parameters become a structure with `Option` fields; an absent
  key and a `None` value both embed to `none` (the code reads them with
  `dict.get`, which collapses the two).
* Python truthiness of an optional string is `some s` with `s ≠ ""`.
* The f-string filter fragments built by `list_issues` (lines 91–114) are
  embedded as an inductive `Fragment`, one constructor per f-string template
  appearing in the source, in source order.
* Exceptions become `Except String`; a `try/except` block becomes a `match`
  on the inner `Except` value.
* Python float division is embedded over `ℚ`; `ZeroDivisionError` is made
  explicit via `pydivQ`.
* `datetime` instants are embedded as integer second counts; `timedelta.days`
  is floor division by 86400 (`Int.fdiv`).
-/

namespace LinearSpec

/-- A scalar value that can sit in the `priority` slot of the parameter dict:
the callers pass either a number or a string. -/
inductive PVal where
  | str (s : String)
  | num (n : Int)
deriving DecidableEq

/-- Python truthiness of a `PVal`: non-empty strings and non-zero numbers are
truthy. -/
def pvalTruthy : PVal → Bool
  | .str s => s ≠ ""
  | .num n => n ≠ 0

/-- The parameter dict accepted by `LinearTools.list_issues` (docstring lines
69–82 plus the keys accepted by the pydantic schema in `linear_mcp.py`:
`assigneeId` and — per the spec's FilterSpec — `unassigned`). Absent keys are
`none`. -/
structure FilterSpec where
  teamId : Option String := none
  projectId : Option String := none
  labelId : Option String := none
  label : Option String := none
  stateId : Option String := none
  status : Option String := none
  priority : Option PVal := none
  assignee : Option String := none
  assigneeId : Option String := none
  unassigned : Option Bool := none
  cycle : Option String := none
  title : Option String := none
deriving DecidableEq

/-- One filter fragment, one constructor per f-string template appearing in
`list_issues` lines 92–114, in source order. The `priorityEq` fragment holds
the raw interpolated value, exactly as the f-string
`priority: \x7b\x7b eq: {params["priority"]} \x7d\x7d` does. -/
inductive Fragment where
  | teamEq (v : String)
  | projectEq (v : String)
  | labelIdEq (v : String)
  | labelNameEq (v : String)
  | stateIdEq (v : String)
  | stateNameEq (v : String)
  | priorityEq (v : PVal)
  | assigneeNull
  | assigneeNameContains (v : String)
  | titleContains (v : String)
  | cycleNameEq (v : String)
deriving DecidableEq

/-- Line 91–92: `if params.get("teamId"): … team id eq fragment`. -/
def fragTeam : Option String → List Fragment
  | none => []
  | some v => if v = "" then [] else [Fragment.teamEq v]

/-- Line 93–94: project id fragment. -/
def fragProject : Option String → List Fragment
  | none => []
  | some v => if v = "" then [] else [Fragment.projectEq v]

/-- Line 95–96: label id fragment. -/
def fragLabelId : Option String → List Fragment
  | none => []
  | some v => if v = "" then [] else [Fragment.labelIdEq v]

/-- Line 97–98: label name fragment. -/
def fragLabel : Option String → List Fragment
  | none => []
  | some v => if v = "" then [] else [Fragment.labelNameEq v]

/-- Line 99–100: state id fragment. -/
def fragStateId : Option String → List Fragment
  | none => []
  | some v => if v = "" then [] else [Fragment.stateIdEq v]

/-- Line 101–102: state name fragment. -/
def fragStatus : Option String → List Fragment
  | none => []
  | some v => if v = "" then [] else [Fragment.stateNameEq v]

/-- Lines 103–104: `if params.get("priority"): … priority eq fragment`, the
raw value interpolated verbatim. A falsy value (0 or empty string) emits
nothing. -/
def fragPriority : Option PVal → List Fragment
  | none => []
  | some v => if pvalTruthy v then [Fragment.priorityEq v] else []

/-- Lines 105–110: `if params.get("assignee") is not None:` — empty string
means the null-assignee filter, anything else a name-contains filter. -/
def fragAssignee : Option String → List Fragment
  | none => []
  | some a => if a = "" then [Fragment.assigneeNull] else [Fragment.assigneeNameContains a]

/-- Lines 111–112: title contains fragment. -/
def fragTitle : Option String → List Fragment
  | none => []
  | some v => if v = "" then [] else [Fragment.titleContains v]

/-- Lines 113–114: cycle name fragment. -/
def fragCycle : Option String → List Fragment
  | none => []
  | some v => if v = "" then [] else [Fragment.cycleNameEq v]

/-- The full filter built by `list_issues` lines 90–116: the concatenation of
the per-key fragments in source order. Note that the function reads only the
ten keys below; `assigneeId` and `unassigned` are never consulted. -/
def compileFilter (p : FilterSpec) : List Fragment :=
  fragTeam p.teamId ++ fragProject p.projectId ++ fragLabelId p.labelId ++
  fragLabel p.label ++ fragStateId p.stateId ++ fragStatus p.status ++
  fragPriority p.priority ++ fragAssignee p.assignee ++ fragTitle p.title ++
  fragCycle p.cycle

/-- Hexadecimal digit test, used only by `isUUIDShaped`. -/
def isHexChar (c : Char) : Bool :=
  c.isDigit || ('a' ≤ c && c ≤ 'f') || ('A' ≤ c && c ≤ 'F')

/-- Split a character list on the dash character (the groups of a UUID). -/
def splitDash : List Char → List (List Char)
  | [] => [[]]
  | c :: rest =>
    let r := splitDash rest
    if c = '-' then [] :: r
    else
      match r with
      | g :: gs => (c :: g) :: gs
      | [] => [[c]]

/-- Modelled from the spec: the source contains no UUID check at all, but
claim C2 speaks of "a syntactically valid UUID string", so the spec's notion
(five dash-separated hexadecimal groups of lengths 8-4-4-4-12) is defined
here only to state that claim. -/
def isUUIDShaped (s : String) : Bool :=
  match splitDash s.data with
  | [a, b, c, d, e] =>
      a.length = 8 && b.length = 4 && c.length = 4 && d.length = 4 &&
      e.length = 12 && (a ++ b ++ c ++ d ++ e).all isHexChar
  | _ => false

/-- Raw nested `state` object of a GraphQL issue node. -/
structure RawState where
  id : String
  name : String
  type : String
deriving DecidableEq

/-- Raw nested `assignee` object. -/
structure RawUser where
  id : String
  name : String
  displayName : String
deriving DecidableEq

/-- Raw nested `team` object. -/
structure RawTeam where
  id : String
  name : String
  key : String
deriving DecidableEq

/-- Raw nested `cycle` object. The timestamps are embedded as already-parsed
integer instants (seconds); `dateutil.parser.parse` in `get_cycle_status` is
the identity under this embedding. -/
structure RawCycle where
  id : String
  name : String
  number : Int
  startsAt : Int
  endsAt : Int
deriving DecidableEq

/-- Raw label record inside the labels wrapper. -/
structure RawLabel where
  id : String
  name : String
  color : String
deriving DecidableEq

/-- The `labels` nested-list wrapper: `\x7b "nodes": [...] \x7d`. -/
structure LabelsWrap where
  nodes : List RawLabel
deriving DecidableEq

/-- One raw issue node as returned by the GraphQL query (fields requested at
lines 125–162). Nullable nested objects are `Option`; an absent key and a
null value both embed to `none`. -/
structure RawIssue where
  id : String
  title : String
  identifier : String
  description : Option String
  priority : Option Int
  state : Option RawState
  assignee : Option RawUser
  team : Option RawTeam
  cycle : Option RawCycle
  labels : Option LabelsWrap
  createdAt : String
  updatedAt : String
deriving DecidableEq

/-- Flattened label record of the canonical issue. -/
structure LabelRec where
  id : String
  name : String
  color : String
deriving DecidableEq

/-- Nested cycle record of the canonical issue (snake_case keys in the code). -/
structure CycleRec where
  id : String
  name : String
  number : Int
  starts_at : Int
  ends_at : Int
deriving DecidableEq

/-- The canonical flat issue record built at lines 185–210 (and identically at
lines 299–324). -/
structure Issue where
  id : String
  title : String
  identifier : String
  description : Option String
  priority : Option Int
  status : Option String
  state_type : Option String
  state_id : Option String
  assignee : Option String
  assignee_id : Option String
  team : Option String
  team_id : Option String
  team_key : Option String
  cycle : Option CycleRec
  labels : List LabelRec
  created_at : String
  updated_at : String
deriving DecidableEq

/-- The response-processing block of `list_issues` lines 185–210, duplicated
verbatim at `get_issue` lines 299–324: flattens nested objects with null
propagation and flattens the labels wrapper (absent wrapper gives `[]`). -/
def normalizeIssue (r : RawIssue) : Issue :=
  { id := r.id
    title := r.title
    identifier := r.identifier
    description := r.description
    priority := r.priority
    status := r.state.map RawState.name
    state_type := r.state.map RawState.type
    state_id := r.state.map RawState.id
    assignee := r.assignee.map RawUser.name
    assignee_id := r.assignee.map RawUser.id
    team := r.team.map RawTeam.name
    team_id := r.team.map RawTeam.id
    team_key := r.team.map RawTeam.key
    cycle := r.cycle.map fun c =>
      { id := c.id, name := c.name, number := c.number,
        starts_at := c.startsAt, ends_at := c.endsAt }
    labels := match r.labels with
      | none => []
      | some w => w.nodes.map fun l => { id := l.id, name := l.name, color := l.color }
    created_at := r.createdAt
    updated_at := r.updatedAt }

/-- The nodes wrapper of the issues connection. -/
structure IssuesConnection where
  nodes : List RawIssue
deriving DecidableEq

/-- The wrapper `\x7b "issues": \x7b "nodes": [...] \x7d \x7d` under the
`data` key of a list response; `none` for `issues` models the `"issues"` key
missing from `result["data"]`. -/
structure IssuesData where
  issues : Option IssuesConnection
deriving DecidableEq

/-- A decoded list-query GraphQL result: `none` for `dataField` models the
`"data"` key missing from the result dict. -/
structure ListResult where
  dataField : Option IssuesData
deriving DecidableEq

/-- Outcome of `_execute_graphql` as observed by a caller: either it raised
(any client-strategy or HTTP failure) or it returned a decoded result. -/
inductive TransportOutcome where
  | raised (msg : String)
  | ok (result : ListResult)
deriving DecidableEq

/-- Result value of `list_issues`: the success dict `\x7b"nodes": ...\x7d` or
the error dict `\x7b"error": ...\x7d`. -/
inductive ListOut where
  | errorResult (msg : String)
  | nodes (ns : List Issue)
deriving DecidableEq

/-- Body of the `try` block of `list_issues` (lines 176–213): transport
failure re-raises, a result without `data`/`issues` keys raises
"Unexpected response format", otherwise every node is normalized. -/
def list_issues_body (t : TransportOutcome) : Except String (List Issue) :=
  match t with
  | .raised m => .error m
  | .ok r =>
    match r.dataField with
    | none => .error "Unexpected response format"
    | some d =>
      match d.issues with
      | none => .error "Unexpected response format"
      | some w => .ok (w.nodes.map normalizeIssue)

/-- `LinearTools.list_issues` lines 175–218: the `except` clause converts any
failure of the body into the single error dict. -/
def list_issues (t : TransportOutcome) : ListOut :=
  match list_issues_body t with
  | .ok ns => ListOut.nodes ns
  | .error e => ListOut.errorResult ("Error listing issues: " ++ e)

/-- Outcome of one per-identifier fetch inside `get_issue` (lines 286–296):
the transport raised, the result lacked the `data`/`issue` keys, the issue
body was null (not found), or a raw issue node came back. -/
inductive FetchOutcome where
  | raised (msg : String)
  | badFormat
  | nullIssue
  | found (raw : RawIssue)
deriving DecidableEq

/-- One slot of the batch result: a processed issue or an inline error dict. -/
inductive SlotEntry where
  | err (msg : String)
  | issue (i : Issue)
deriving DecidableEq

/-- The body of the per-identifier loop of `get_issue` (lines 240–329): each
failure mode is converted to an inline error entry by the `except`/`continue`
logic, and a returned node goes through the shared processing block. -/
def processFetch (issue_id : String) (f : FetchOutcome) : SlotEntry :=
  match f with
  | .raised m => .err s!"Error getting issue {issue_id}: {m}"
  | .badFormat => .err s!"Unexpected response format for issue {issue_id}"
  | .nullIssue => .err s!"Issue with ID {issue_id} not found"
  | .found raw => .issue (normalizeIssue raw)

/-- The accumulation of `results.append(...)` over the identifier list, in
loop order. -/
def getIssueLoop (fetch : String → FetchOutcome) (ids : List String) : List SlotEntry :=
  ids.foldl (fun acc i => acc ++ [processFetch i (fetch i)]) []

/-- Input shape of `get_issue`: a single identifier string or a list. -/
inductive GetIn where
  | single (i : String)
  | many (ids : List String)
deriving DecidableEq

/-- Output shape of `get_issue`: `results[0]` directly for a single
identifier, the `\x7b"issues": [...]\x7d` dict for a list. -/
inductive GetOut where
  | one (e : SlotEntry)
  | batch (es : List SlotEntry)
deriving DecidableEq

/-- `LinearTools.get_issue` lines 220–335, parametrized by the per-identifier
fetch outcome. A single id is wrapped into a one-element list, the loop runs,
and `results[0]` is returned unwrapped. -/
def get_issue (fetch : String → FetchOutcome) : GetIn → GetOut
  | .single i =>
    match getIssueLoop fetch [i] with
    | r :: _ => .one r
    | [] => .one (.err "list index out of range")
  | .many ids => .batch (getIssueLoop fetch ids)

/-- Decoded JSON body of the HTTP fallback response. `errors = none` models
the `"errors"` key being absent from the dict; `some l` models the key being
present with array `l` (possibly empty) — line 60 tests key presence with
`"errors" in result`. -/
structure GraphQLBody where
  errors : Option (List String) := none
  dataField : Option IssuesData := none
deriving DecidableEq

/-- The HTTP request assembled by the fallback branch of `_execute_graphql`
(lines 44–53): fixed endpoint, the credential placed verbatim in the
Authorization header (no scheme prefix), JSON body of query and variables. -/
structure HttpRequest where
  url : String
  contentType : String
  authorization : String
  bodyQuery : String
  bodyVariables : List (String × String)
deriving DecidableEq

/-- Builds the fallback request exactly as lines 44–53 do. -/
def buildRequest (apiKey query : String) (vars : List (String × String)) : HttpRequest :=
  { url := "https://api.linear.app/graphql"
    contentType := "application/json"
    authorization := apiKey
    bodyQuery := query
    bodyVariables := vars }

/-- The response handling of the HTTP fallback (lines 55–63): a non-200
status raises with the body text; then the presence of the `errors` key —
empty array or not — raises; otherwise the decoded body is returned. -/
def httpFallback (status : Nat) (bodyText : String) (body : GraphQLBody) : Except String GraphQLBody :=
  if status ≠ 200 then
    .error s!"GraphQL request failed with status {status}: {bodyText}"
  else
    match body.errors with
    | some errs => .error ("GraphQL errors: " ++ String.intercalate ", " errs)
    | none => .ok body

/-- True exactly on `Except.ok`. -/
def exceptOk {α : Type} (e : Except String α) : Bool :=
  match e with
  | .ok _ => true
  | .error _ => false

/-- `timedelta.days` on the difference of two instants (seconds): floor
division by 86400, like Python's `timedelta.days`. -/
def daysDiff (a b : Int) : Int :=
  Int.fdiv (a - b) 86400

/-- Python float division over `ℚ`, with `ZeroDivisionError` explicit. -/
def pydivQ (a b : ℚ) : Except String ℚ :=
  if b = 0 then .error "ZeroDivisionError: division by zero"
  else .ok (a / b)

/-- ASCII lower-casing of a character (the status words compared at line 399
are ASCII; Python `str.lower` restricted accordingly). -/
def lowerChar (c : Char) : Char :=
  if c.isUpper then Char.ofNat (c.toNat + 32) else c

/-- ASCII lower-casing of a string. -/
def lowerStr (s : String) : String :=
  String.mk (s.data.map lowerChar)

/-- Completed-status test of line 399: lower-cased membership in the fixed
four-word list. -/
def isCompletedStatus (st : String) : Bool :=
  let l := lowerStr st
  l = "done" || l = "completed" || l = "cancelled" || l = "canceled"

/-- Insert-or-increment on an insertion-ordered association list, replicating
the Python dict update of lines 385–389. -/
def bumpCount : List (String × Nat) → String → List (String × Nat)
  | [], st => [(st, 1)]
  | (k, n) :: rest, st =>
    if k = st then (k, n + 1) :: rest else (k, n) :: bumpCount rest st

/-- Append an issue reference to its status group, replicating the Python
dict update of lines 385–395. -/
def addGroup : List (String × List (String × String)) → String → String × String →
    List (String × List (String × String))
  | [], st, e => [(st, [e])]
  | (k, l) :: rest, st, e =>
    if k = st then (k, l ++ [e]) :: rest else (k, l) :: addGroup rest st e

/-- Accumulator of the counting loop of `get_cycle_status` lines 372–400. -/
structure CycleAgg where
  counts : List (String × Nat)
  groups : List (String × List (String × String))
  completed : Nat
deriving DecidableEq

/-- One iteration of the loop at lines 380–400: a falsy status (null or the
empty string, line 382 `if not status: continue`) contributes nothing;
otherwise the status count, the status group (with the human-readable
identifier and title), and possibly the completed count are updated. -/
def stepIssue (agg : CycleAgg) (i : Issue) : CycleAgg :=
  match i.status with
  | none => agg
  | some st =>
    if st = "" then agg
    else
      { counts := bumpCount agg.counts st
        groups := addGroup agg.groups st (i.identifier, i.title)
        completed := agg.completed + (if isCompletedStatus st then 1 else 0) }

/-- The whole counting loop over the node list. -/
def cycleAgg (ns : List Issue) : CycleAgg :=
  ns.foldl stepIssue { counts := [], groups := [], completed := 0 }

/-- The `ticket_counts` sub-dict of the result (lines 442–447):
`total` is `len(issues["nodes"])` — the raw node count, null statuses
included — and `remaining = total - completed`. -/
structure TicketCounts where
  total : Nat
  byStatus : List (String × Nat)
  completed : Nat
  remaining : Int
deriving DecidableEq

/-- `ticket_counts` as assembled at lines 442–447. -/
def ticketCountsOf (ns : List Issue) : TicketCounts :=
  { total := ns.length
    byStatus := (cycleAgg ns).counts
    completed := (cycleAgg ns).completed
    remaining := (ns.length : Int) - ((cycleAgg ns).completed : Int) }

/-- Line 403: `completed / total * 100 if total > 0 else 0`. -/
def completionPctOf (ns : List Issue) : ℚ :=
  if ns.length > 0 then ((cycleAgg ns).completed : ℚ) / (ns.length : ℚ) * 100 else 0

/-- The `cycle_details` sub-dict (lines 433–441). -/
structure CycleDetails where
  name : String
  number : Int
  starts_at : Int
  ends_at : Int
  totalDays : Int
  daysPassed : Int
  daysLeft : Int
deriving DecidableEq

/-- The `completion_stats` sub-dict (lines 448–451). -/
structure CompletionStats where
  percentage : ℚ
  timeElapsedPercentage : ℚ
deriving DecidableEq

/-- The `progress_tracking` sub-dict (lines 452–455). -/
structure ProgressTracking where
  onTrack : Bool
  reason : String
deriving DecidableEq

/-- The full success record returned by `get_cycle_status` (lines 432–457). -/
structure CycleStatus where
  cycleDetails : CycleDetails
  ticketCounts : TicketCounts
  completionStats : CompletionStats
  progressTracking : ProgressTracking
  issuesByStatus : List (String × List (String × String))
deriving DecidableEq

/-- Value returned by `get_cycle_status` when no exception escapes: the
success record or one of the returned error dicts. -/
inductive CycleOut where
  | errorResult (msg : String)
  | status (st : CycleStatus)
deriving DecidableEq

/-- The error dict of lines 356–358, returned both when `list_issues` gave an
error dict and when it gave an empty node list. The numeric interpolation of
the source message is kept; the quotation marks around the name are not. -/
def noIssuesMsg (cycName : String) : String :=
  s!"No issues found for cycle {cycName} or cycle does not exist"

/-- First issue whose `cycle` field is truthy (lines 361–365). -/
def firstCycle : List Issue → Option CycleRec
  | [] => none
  | i :: rest =>
    match i.cycle with
    | some c => some c
    | none => firstCycle rest

/-- The on-track verdict of lines 417–430. In the `days_left > 0` branches
the source divides `days_passed / total_days` with no guard, so a zero
`total_days` raises `ZeroDivisionError` there. The numeric percentages
interpolated into the reason strings are abstracted away. -/
def verdictOf (completionPct : ℚ) (daysPassed totalDays daysLeft : Int) :
    Except String (Bool × String) :=
  if daysLeft ≤ 0 then
    .ok (false, "Cycle has ended")
  else do
    let q ← pydivQ (daysPassed : ℚ) (totalDays : ℚ)
    if completionPct ≥ q * 100 then
      pure (true, "Completion rate is on pace with time elapsed")
    else
      pure (false, "Completion rate is behind time elapsed")

/-- `get_cycle_status` lines 360–457, starting from the `list_issues` result:
cycle metadata from the first issue carrying it, the counting loop, the date
arithmetic, the (unguarded) verdict, and the assembled result record. The
whole function body has no `try`/`except`, so the `Except` error of the
verdict is the exception escaping to the caller. -/
def getCycleStatusCore (ns : List Issue) (cycName : String) (now : Int) :
    Except String CycleOut :=
  match firstCycle ns with
  | none => .ok (.errorResult s!"Could not retrieve cycle information for {cycName}")
  | some ci =>
    let totalDays := daysDiff ci.ends_at ci.starts_at
    let daysPassed := daysDiff now ci.starts_at
    let daysLeft := daysDiff ci.ends_at now
    let completionPct := completionPctOf ns
    do
      let v ← verdictOf completionPct daysPassed totalDays daysLeft
      pure (.status
        { cycleDetails :=
            { name := ci.name, number := ci.number,
              starts_at := ci.starts_at, ends_at := ci.ends_at,
              totalDays := totalDays, daysPassed := daysPassed, daysLeft := daysLeft }
          ticketCounts := ticketCountsOf ns
          completionStats :=
            { percentage := completionPct
              timeElapsedPercentage :=
                if totalDays > 0 then (daysPassed : ℚ) / (totalDays : ℚ) * 100 else 100 }
          progressTracking := { onTrack := v.1, reason := v.2 }
          issuesByStatus := (cycleAgg ns).groups })

/-- Lines 352–358: the guard `if not issues or not issues.get("nodes")` —
an error dict from `list_issues` has no `nodes` key and an empty node list is
falsy, so both collapse to the same returned error dict. -/
def getCycleStatusList (li : ListOut) (cycName : String) (now : Int) :
    Except String CycleOut :=
  match li with
  | .errorResult _ => .ok (.errorResult (noIssuesMsg cycName))
  | .nodes [] => .ok (.errorResult (noIssuesMsg cycName))
  | .nodes ns => getCycleStatusCore ns cycName now

/-- `LinearTools.get_cycle_status` lines 337–457, composed with the
`list_issues` call of line 353 over the transport outcome. -/
def get_cycle_status (t : TransportOutcome) (cycName : String) (now : Int) :
    Except String CycleOut :=
  getCycleStatusList (list_issues t) cycName now

/-- Fragments of the assignee dimension: the null-assignee test and the
assignee-name predicate. -/
def isAssigneeFrag : Fragment → Bool
  | .assigneeNull => true
  | .assigneeNameContains _ => true
  | _ => false

lemma filter_fragTeam (o : Option String) : (fragTeam o).filter isAssigneeFrag = [] := by
  cases o with
  | none => rfl
  | some a => by_cases h : a = "" <;> simp [fragTeam, h, List.filter_cons, isAssigneeFrag]

lemma filter_fragProject (o : Option String) : (fragProject o).filter isAssigneeFrag = [] := by
  cases o with
  | none => rfl
  | some a => by_cases h : a = "" <;> simp [fragProject, h, List.filter_cons, isAssigneeFrag]

lemma filter_fragLabelId (o : Option String) : (fragLabelId o).filter isAssigneeFrag = [] := by
  cases o with
  | none => rfl
  | some a => by_cases h : a = "" <;> simp [fragLabelId, h, List.filter_cons, isAssigneeFrag]

lemma filter_fragLabel (o : Option String) : (fragLabel o).filter isAssigneeFrag = [] := by
  cases o with
  | none => rfl
  | some a => by_cases h : a = "" <;> simp [fragLabel, h, List.filter_cons, isAssigneeFrag]

lemma filter_fragStateId (o : Option String) : (fragStateId o).filter isAssigneeFrag = [] := by
  cases o with
  | none => rfl
  | some a => by_cases h : a = "" <;> simp [fragStateId, h, List.filter_cons, isAssigneeFrag]

lemma filter_fragStatus (o : Option String) : (fragStatus o).filter isAssigneeFrag = [] := by
  cases o with
  | none => rfl
  | some a => by_cases h : a = "" <;> simp [fragStatus, h, List.filter_cons, isAssigneeFrag]

lemma filter_fragPriority (o : Option PVal) : (fragPriority o).filter isAssigneeFrag = [] := by
  cases o with
  | none => rfl
  | some a => by_cases h : pvalTruthy a = true <;> simp [fragPriority, h, List.filter_cons, isAssigneeFrag]

lemma filter_fragTitle (o : Option String) : (fragTitle o).filter isAssigneeFrag = [] := by
  cases o with
  | none => rfl
  | some a => by_cases h : a = "" <;> simp [fragTitle, h, List.filter_cons, isAssigneeFrag]

lemma filter_fragCycle (o : Option String) : (fragCycle o).filter isAssigneeFrag = [] := by
  cases o with
  | none => rfl
  | some a => by_cases h : a = "" <;> simp [fragCycle, h, List.filter_cons, isAssigneeFrag]

lemma filter_fragAssignee_empty :
    (fragAssignee (some "")).filter isAssigneeFrag = [Fragment.assigneeNull] := rfl

/-- C1: the claim says a textual priority in the fixed vocabulary compiles to
its numeric code and unrecognized text emits no predicate, while a numeric
priority passes through unchanged. The code (lines 103–104) interpolates any
truthy value verbatim — "urgent" is emitted as the raw text, not as 1, an
unrecognized word is emitted rather than dropped — and the numeric priority 0
is falsy in Python, so it is dropped even though the docstring declares 0–4
valid. -/
theorem c1_priority_raw_passthrough :
    compileFilter { priority := some (PVal.str "urgent") } =
      [Fragment.priorityEq (PVal.str "urgent")]
    ∧ compileFilter { priority := some (PVal.num 0) } = []
    ∧ compileFilter { priority := some (PVal.num 2) } = [Fragment.priorityEq (PVal.num 2)]
    ∧ compileFilter { priority := some (PVal.str "banana") } =
      [Fragment.priorityEq (PVal.str "banana")] := by
  decide

/-- C2 counterexample: "Bhoomika" is not UUID-shaped, yet the compiled filter
for a spec whose only entry is that `assigneeId` is empty — in particular it
carries no assignee-name predicate using the value, contrary to the claim. -/
theorem c2_assigneeid_counterexample :
    isUUIDShaped "Bhoomika" = false
    ∧ compileFilter { assigneeId := some "Bhoomika" } = []
    ∧ Fragment.assigneeNameContains "Bhoomika" ∉
        compileFilter { assigneeId := some "Bhoomika" } := by
  refine ⟨by decide, by decide, by decide⟩

/-- C2 amended: `assigneeId` is ignored entirely by the filter compiler —
the compiled filter of any spec is unchanged by any `assigneeId` value
(UUID-shaped or not), so no predicate of any kind is derived from it. -/
theorem c2_assigneeid_ignored :
    ∀ (sp : FilterSpec) (v : Option String),
      compileFilter { sp with assigneeId := v } = compileFilter sp := by
  intro sp v
  rfl

/-- C3 counterexample: a spec with `unassigned = true` and a non-empty
assignee compiles to exactly the assignee-name predicate — not to the
null-assignee predicate the claim requires. -/
theorem c3_unassigned_counterexample :
    compileFilter { unassigned := some true, assignee := some "Alice" } =
      [Fragment.assigneeNameContains "Alice"] := by
  decide

/-- C3 amended: the `unassigned` key is ignored by the filter compiler; the
unassigned sentinel is the empty-string assignee, and for it the assignee
dimension of the compiled filter consists of exactly the null-assignee
predicate. -/
theorem c3_unassigned_amended :
    ∀ (sp : FilterSpec) (u : Option Bool),
      compileFilter { sp with unassigned := u } = compileFilter sp
      ∧ (compileFilter { sp with assignee := some "" }).filter isAssigneeFrag =
          [Fragment.assigneeNull] := by
  intro sp u
  constructor
  · rfl
  · simp [compileFilter, List.filter_append, filter_fragTeam, filter_fragProject,
      filter_fragLabelId, filter_fragLabel, filter_fragStateId, filter_fragStatus,
      filter_fragPriority, filter_fragTitle, filter_fragCycle, filter_fragAssignee_empty]

/-- The success record of a `get_cycle_status` run, when there is one. -/
def statusField : Except String CycleOut → Option CycleStatus
  | .ok (.status st) => some st
  | _ => none

/-- The escaped-exception message of a `get_cycle_status` run, when there is
one. -/
def errField {α : Type} : Except String α → Option String
  | .error m => some m
  | _ => none

/-- A normalized issue with status "Done" sitting in a 14-day cycle, used as
concrete input for claim C4. -/
def iDone4 : Issue :=
  { id := "a", title := "TA", identifier := "INF-2", description := none,
    priority := none, status := some "Done", state_type := none, state_id := none,
    assignee := none, assignee_id := none, team := none, team_id := none,
    team_key := none,
    cycle := some { id := "c", name := "S7", number := 7, starts_at := 0, ends_at := 1209600 },
    labels := [], created_at := "", updated_at := "" }

/-- A normalized issue with a null status, used as concrete input for claim
C4. -/
def iNull4 : Issue :=
  { iDone4 with id := "b", identifier := "INF-3", status := none, cycle := none }

lemma stepIssue_status_none {i : Issue} (h : i.status = none) (a : CycleAgg) :
    stepIssue a i = a := by
  simp [stepIssue, h]

/-- C4 counterexample: on one "Done" issue plus one null-status issue (five
days into a fourteen-day cycle), `ticket_counts.total` is 2 and the
completion percentage is 50 — the null-status issue is counted in the total
and in the percentage denominator, so it is not "excluded from every count"
as the claim requires (which would give total 1 and percentage 100). -/
theorem c4_nullstatus_counterexample :
    iNull4.status = none
    ∧ (statusField (getCycleStatusList (ListOut.nodes [iDone4, iNull4]) "S7" 432000)).map
        (fun st => st.ticketCounts.total) = some 2
    ∧ (statusField (getCycleStatusList (ListOut.nodes [iDone4, iNull4]) "S7" 432000)).map
        (fun st => st.completionStats.percentage) = some 50 := by
  have h1 : isCompletedStatus "Done" = true := by decide
  have h2 : ("Done" = "") = False := by simp
  have h3 : Int.fdiv 1209600 86400 = 14 := by decide
  have h4 : Int.fdiv 432000 86400 = 5 := by decide
  have h5 : Int.fdiv 777600 86400 = 9 := by decide
  refine ⟨rfl, ?_⟩
  norm_num [statusField, getCycleStatusList, getCycleStatusCore, verdictOf, pydivQ,
    completionPctOf, cycleAgg, stepIssue, bumpCount, addGroup, ticketCountsOf, daysDiff,
    firstCycle, iDone4, iNull4, h1, h2, h3, h4, h5, Bind.bind, Except.bind, Functor.map,
    Except.map, pure, Except.pure]

/-- C4 amended: a null-status issue contributes nothing to the by-status
counts, the status groups, or the completed count (the whole loop accumulator
is unchanged by its presence), but it is counted in `ticket_counts.total` —
and hence in `remaining` and in the completion-percentage denominator. The
arithmetic invariants `completed + remaining = total` and
`percentage = completed / total * 100` (0 when the total is 0) hold for every
issue list. -/
theorem c4_nullstatus_amended :
    ∀ (pre post : List Issue) (i : Issue), i.status = none →
      cycleAgg (pre ++ i :: post) = cycleAgg (pre ++ post)
      ∧ (ticketCountsOf (pre ++ i :: post)).total = (ticketCountsOf (pre ++ post)).total + 1
      ∧ ∀ ns : List Issue,
          ((ticketCountsOf ns).completed : Int) + (ticketCountsOf ns).remaining =
            ((ticketCountsOf ns).total : Int)
          ∧ completionPctOf ns =
              (if 0 < (ticketCountsOf ns).total
               then ((ticketCountsOf ns).completed : ℚ) / ((ticketCountsOf ns).total : ℚ) * 100
               else 0) := by
  intro pre post i h
  refine ⟨?_, ?_, ?_⟩
  · simp [cycleAgg, List.foldl_append, List.foldl_cons, stepIssue_status_none h]
  · simp only [ticketCountsOf, List.length_append, List.length_cons]
    omega
  · intro ns
    refine ⟨by simp only [ticketCountsOf]; omega, ?_⟩
    simp [completionPctOf, ticketCountsOf, Nat.pos_iff_ne_zero]

/-- Witness for `c4_nullstatus_amended` at the concrete null-status issue
`iNull4` between an empty prefix and a singleton suffix. -/
theorem c4_nullstatus_amended_witness :
    cycleAgg ([] ++ iNull4 :: [iDone4]) = cycleAgg ([] ++ [iDone4])
    ∧ (ticketCountsOf ([] ++ iNull4 :: [iDone4])).total =
        (ticketCountsOf ([] ++ [iDone4])).total + 1
    ∧ ∀ ns : List Issue,
        ((ticketCountsOf ns).completed : Int) + (ticketCountsOf ns).remaining =
          ((ticketCountsOf ns).total : Int)
        ∧ completionPctOf ns =
            (if 0 < (ticketCountsOf ns).total
             then ((ticketCountsOf ns).completed : ℚ) / ((ticketCountsOf ns).total : ℚ) * 100
             else 0) :=
  c4_nullstatus_amended [] [iDone4] iNull4 rfl

/-- A normalized issue sitting in a zero-length cycle (identical start and
end instants), used as concrete input for claim C5. -/
def i5 : Issue :=
  { id := "x1", title := "T1", identifier := "INF-1", description := none,
    priority := some 1, status := some "Todo", state_type := some "unstarted",
    state_id := some "s", assignee := none, assignee_id := none, team := none,
    team_id := none, team_key := none,
    cycle := some { id := "c", name := "Sprint 9", number := 9,
                    starts_at := 500000, ends_at := 500000 },
    labels := [], created_at := "", updated_at := "" }

/-- C5: the claim says every division by `total_days` is guarded. The
reporting site (line 450) is indeed guarded — with `now` past the cycle end
the run succeeds and reports `time_elapsed_percentage = 100` — but the
on-track comparison of line 424 is not: with `total_days = 0` and
`days_left > 0` the same cycle makes the division raise `ZeroDivisionError`,
which escapes `get_cycle_status`. -/
theorem c5_total_days_division_bug :
    getCycleStatusList (ListOut.nodes [i5]) "Sprint 9" 0 =
      Except.error "ZeroDivisionError: division by zero"
    ∧ (statusField (getCycleStatusList (ListOut.nodes [i5]) "Sprint 9" 700000)).map
        (fun st => st.completionStats.timeElapsedPercentage) = some 100 := by
  constructor
  · rfl
  · rfl

/-- C6: `get_issue` over a list of identifiers returns the batch wrapper with
exactly one entry per identifier, in input order, each entry depending only
on its own identifier's fetch outcome; each failure shape becomes that slot's
inline error entry, a returned node becomes the normalized issue, and a
single string identifier returns its one entry unwrapped. -/
theorem c6_get_issue_order :
    ∀ (fetch : String → FetchOutcome) (ids : List String) (a : String),
      get_issue fetch (GetIn.many ids) =
        GetOut.batch (ids.map fun i => processFetch i (fetch i))
      ∧ get_issue fetch (GetIn.single a) = GetOut.one (processFetch a (fetch a))
      ∧ (∀ m, processFetch a (FetchOutcome.raised m) =
          SlotEntry.err s!"Error getting issue {a}: {m}")
      ∧ processFetch a FetchOutcome.nullIssue =
          SlotEntry.err s!"Issue with ID {a} not found"
      ∧ processFetch a FetchOutcome.badFormat =
          SlotEntry.err s!"Unexpected response format for issue {a}"
      ∧ (∀ raw, processFetch a (FetchOutcome.found raw) =
          SlotEntry.issue (normalizeIssue raw)) := by
  intro fetch ids a
  have hloop : ∀ (l : List String) (acc : List SlotEntry),
      l.foldl (fun acc i => acc ++ [processFetch i (fetch i)]) acc =
        acc ++ l.map (fun i => processFetch i (fetch i)) := by
    intro l
    induction l with
    | nil => intro acc; simp
    | cons x xs ih => intro acc; simp [List.foldl_cons, ih]
  refine ⟨?_, rfl, fun m => rfl, rfl, rfl, fun raw => rfl⟩
  simp [get_issue, getIssueLoop, hloop]

/-- A raw issue node sitting in a zero-length cycle, pushed through the full
transport–normalize–analytics pipeline as concrete input for claim C7. -/
def raw7 : RawIssue :=
  { id := "y1", title := "T7", identifier := "INF-7", description := none,
    priority := some 2,
    state := some { id := "s7", name := "In Progress", type := "started" },
    assignee := none, team := none,
    cycle := some { id := "c7", name := "Sprint 10", number := 10,
                    startsAt := 1000000, endsAt := 1000000 },
    labels := some { nodes := [] }, createdAt := "", updatedAt := "" }

/-- C7 counterexample: a successful transport response whose only issue lies
in a zero-length cycle makes the public `get_cycle_status` operation let a
`ZeroDivisionError` escape to its caller instead of returning an error
value. -/
theorem c7_exception_escape_counterexample :
    errField (get_cycle_status
      (TransportOutcome.ok { dataField := some { issues := some { nodes := [raw7] } } })
      "Sprint 10" 0) = some "ZeroDivisionError: division by zero" := by
  decide

/-- C7 amended: `list_issues` and `get_issue` never let an exception escape —
every transport or response-processing failure becomes an error value (a
single error dict for the list operation, a per-slot error entry for the
batch fetch) — but `get_cycle_status` can let an exception escape (the
unguarded division of line 424). -/
theorem c7_totality_amended :
    ∀ (t : TransportOutcome),
      ((∃ ns, list_issues t = ListOut.nodes ns)
        ∨ (∃ m, list_issues t = ListOut.errorResult m))
      ∧ (∀ m, list_issues (TransportOutcome.raised m) =
          ListOut.errorResult ("Error listing issues: " ++ m))
      ∧ (∀ i m, processFetch i (FetchOutcome.raised m) =
          SlotEntry.err s!"Error getting issue {i}: {m}") := by
  intro t
  refine ⟨?_, fun m => rfl, fun i m => rfl⟩
  cases t with
  | raised m => exact Or.inr ⟨_, rfl⟩
  | ok r =>
    obtain ⟨df⟩ := r
    cases df with
    | none => exact Or.inr ⟨_, rfl⟩
    | some d =>
      obtain ⟨iss⟩ := d
      cases iss with
      | none => exact Or.inr ⟨_, rfl⟩
      | some w => exact Or.inl ⟨_, rfl⟩

/-- C8 counterexample: a response with HTTP status 200 whose decoded body
carries an empty `errors` array fails in the HTTP fallback — the code tests
key presence, not non-emptiness, so the claim's "empty errors array succeeds"
is false. -/
theorem c8_empty_errors_counterexample :
    httpFallback 200 "" { errors := some [], dataField := none } =
      Except.error "GraphQL errors: " := by
  rfl

/-- C8 amended: the HTTP fallback succeeds exactly when the status is 200 and
the decoded body has no `errors` key at all — presence of the key, even with
an empty array, fails — and the request it sends places the credential
verbatim in the Authorization header (no scheme prefix) against the fixed
endpoint with the query and variables as body. -/
theorem c8_transport_amended :
    ∀ (status : Nat) (bodyText : String) (body : GraphQLBody),
      (exceptOk (httpFallback status bodyText body) = true ↔
        (status = 200 ∧ body.errors = none))
      ∧ ∀ (apiKey q : String) (vars : List (String × String)),
          (buildRequest apiKey q vars).authorization = apiKey
          ∧ (buildRequest apiKey q vars).url = "https://api.linear.app/graphql"
          ∧ (buildRequest apiKey q vars).bodyQuery = q
          ∧ (buildRequest apiKey q vars).bodyVariables = vars := by
  intro status bodyText body
  refine ⟨?_, fun apiKey q vars => ⟨rfl, rfl, rfl, rfl⟩⟩
  unfold httpFallback exceptOk
  by_cases hs : status = 200
  · cases hb : body.errors <;> simp [hs, hb]
  · simp [hs]

/-- Witness for `c8_transport_amended` at a concrete response shape. -/
theorem c8_transport_amended_witness :
    (exceptOk (httpFallback 200 "body" { errors := none, dataField := none }) = true ↔
      (200 = 200 ∧ ({ errors := none, dataField := none } : GraphQLBody).errors = none))
    ∧ ∀ (apiKey q : String) (vars : List (String × String)),
        (buildRequest apiKey q vars).authorization = apiKey
        ∧ (buildRequest apiKey q vars).url = "https://api.linear.app/graphql"
        ∧ (buildRequest apiKey q vars).bodyQuery = q
        ∧ (buildRequest apiKey q vars).bodyVariables = vars :=
  c8_transport_amended 200 "body" { errors := none, dataField := none }

/-- C9: normalization is total on raw nodes — for a node whose nested state,
assignee, team, cycle and labels objects are all null, every derived field of
the produced issue is null and `labels` is the empty list (never null),
whatever the pass-through scalar fields are. -/
theorem c9_normalize_null_total :
    ∀ (idv titlev identv : String) (descv : Option String) (priov : Option Int)
      (cav uav : String),
      normalizeIssue
        { id := idv, title := titlev, identifier := identv, description := descv,
          priority := priov, state := none, assignee := none, team := none,
          cycle := none, labels := none, createdAt := cav, updatedAt := uav } =
        { id := idv, title := titlev, identifier := identv, description := descv,
          priority := priov, status := none, state_type := none, state_id := none,
          assignee := none, assignee_id := none, team := none, team_id := none,
          team_key := none, cycle := none, labels := [],
          created_at := cav, updated_at := uav } := by
  intro idv titlev identv descv priov cav uav
  rfl

/-- C10: when the underlying `list_issues` call yields an error dict — in
particular when the transport raised — `get_cycle_status` returns exactly the
same "no issues found" error result as for an empty node list, independent of
the current instant (no date arithmetic is reached); transport failure and an
empty or nonexistent cycle are indistinguishable in its output. -/
theorem c10_error_collapse :
    ∀ (m cycName : String) (now : Int),
      getCycleStatusList (ListOut.errorResult m) cycName now =
        getCycleStatusList (ListOut.nodes []) cycName now
      ∧ getCycleStatusList (ListOut.errorResult m) cycName now =
          Except.ok (CycleOut.errorResult (noIssuesMsg cycName))
      ∧ get_cycle_status (TransportOutcome.raised m) cycName now =
          Except.ok (CycleOut.errorResult (noIssuesMsg cycName)) := by
  intro m cycName now
  exact ⟨rfl, rfl, rfl⟩

end LinearSpec
